import Mathlib

/-!
Verification of the quality-ranking and search-orchestration pipeline of the
Music-Usenet-Manager repository.  The definitions below are shallow embeddings
of the TypeScript source: JavaScript numbers that can only hold real values in
the relevant code paths are modelled as rationals, `undefined` optional fields
as `Option`, and thrown exceptions as `Except`.  Where the source relies on
JavaScript truthiness of a numeric field (`0` is falsy) the embedding models
that check explicitly.
-/

namespace MusicUsenetManager

/-- Model of JavaScript `String.prototype.toUpperCase` on the ASCII strings
used for format tags (`src/main/services/QualityProfileService.ts`). -/
def jsUpper (s : String) : String :=
  String.mk (s.toList.map Char.toUpper)

/-- Truthiness of an optional numeric field in JavaScript: `undefined` and `0`
are falsy, every other number is truthy. -/
def numTruthy (x : Option ℚ) : Bool :=
  match x with
  | some v => decide (v ≠ 0)
  | none => false

/-- Embedded `quality` sub-record of a search result (`shared/types`):
`format` is the raw tag string, `bitrate` is optional. -/
structure Quality where
  format : String
  bitrate : Option ℚ
deriving DecidableEq, Repr

/-- Embedded `SearchResult` record (`shared/types`). -/
structure SearchResult where
  title : String
  nzbUrl : String
  size : ℚ
  age : ℚ
  indexer : String
  quality : Quality
deriving DecidableEq, Repr

/-- Embedded `QualityProfile` record (`shared/types`). -/
structure QualityProfile where
  id : String
  name : String
  formats : List String
  minBitrate : Option ℚ
  maxFileSize : Option ℚ
  isDefault : Bool
deriving DecidableEq, Repr

/-- Body of the predicate in QualityProfileService.filterResults
(`src/main/services/QualityProfileService.ts` lines 137-163).  The source
guards the bitrate and size checks with JavaScript truthiness of
`profile.minBitrate`, `result.quality.bitrate` and `profile.maxFileSize`. -/
def resultPassesFilter (profile : QualityProfile) (result : SearchResult) : Bool :=
  let format := jsUpper result.quality.format
  let acceptedFormats := profile.formats.map jsUpper
  if !(acceptedFormats.contains format) then
    false
  else if numTruthy profile.minBitrate && numTruthy result.quality.bitrate
      && decide (result.quality.bitrate.getD 0 < profile.minBitrate.getD 0) then
    false
  else if numTruthy profile.maxFileSize
      && decide (profile.maxFileSize.getD 0 * 1024 * 1024 < result.size) then
    false
  else
    true

/-- QualityProfileService.filterResults. -/
def filterResults (results : List SearchResult) (profile : QualityProfile) : List SearchResult :=
  results.filter (resultPassesFilter profile)

/-- The lossless format list used by the ranker for the bitrate ceiling. -/
def losslessFormats : List String := ["FLAC", "ALAC", "WAV"]

/-- Score computed for one result by QualityProfileService.rankResults
(`src/main/services/QualityProfileService.ts` lines 169-206).  The
`bitrate ≠ 0` test models the JavaScript truthiness guard
`if (result.quality.bitrate)`. -/
def scoreResult (profile : QualityProfile) (result : SearchResult) : ℚ :=
  let format := jsUpper result.quality.format
  let formatScore : ℚ :=
    match profile.formats.findIdx? (fun f => jsUpper f == format) with
    | some formatIndex => ((profile.formats.length - formatIndex : ℕ) : ℚ) * 20
    | none => 0
  let bitrateScore : ℚ :=
    match result.quality.bitrate with
    | some bitrate =>
        if bitrate ≠ 0 then
          let maxBitrate : ℚ := if losslessFormats.contains format then 1411 else 320
          min (bitrate / maxBitrate * 50) 50
        else 0
    | none => 0
  let agePenalty : ℚ := min result.age 30
  let sizeMB : ℚ := result.size / (1024 * 1024)
  let sizeAdjust : ℚ := if sizeMB < 10 then -20 else if sizeMB > 500 then -10 else 0
  formatScore + bitrateScore - agePenalty + sizeAdjust

/-- Comparator on scored pairs: the source sorts with
`(a, b) => b.score - a.score`, a stable descending sort by score. -/
def scoreLE (a b : SearchResult × ℚ) : Bool :=
  decide (b.2 ≤ a.2)

/-- QualityProfileService.rankResults: map to (result, score) pairs, stable
sort descending by score, project the results back out. -/
def rankResults (results : List SearchResult) (profile : QualityProfile) : List SearchResult :=
  let scored := results.map (fun result => (result, scoreResult profile result))
  let sorted := scored.mergeSort scoreLE
  sorted.map (fun item => item.1)

/-- QualityProfileService.selectBestResult. -/
def selectBestResult (results : List SearchResult) (profile : QualityProfile) :
    Option SearchResult :=
  let filtered := filterResults results profile
  if filtered.length = 0 then none
  else (rankResults filtered profile).head?

/-- Scenario quality profile from the specification (section 8, filter+rank
end-to-end scenario). -/
def scenarioProfile : QualityProfile :=
  ⟨"p1", "scenario", ["FLAC", "MP3"], some 256, some 200, true⟩

/-- Scenario candidate A: FLAC, 1000 kbps, 50 MB, age 2. -/
def candidateA : SearchResult :=
  ⟨"A", "nzb-a", 50 * 1024 * 1024, 2, "ix1", ⟨"FLAC", some 1000⟩⟩

/-- Scenario candidate B: MP3, 192 kbps, 8 MB, age 1. -/
def candidateB : SearchResult :=
  ⟨"B", "nzb-b", 8 * 1024 * 1024, 1, "ix1", ⟨"MP3", some 192⟩⟩

/-- Scenario candidate C: MP3, 320 kbps, 80 MB, age 10. -/
def candidateC : SearchResult :=
  ⟨"C", "nzb-c", 80 * 1024 * 1024, 10, "ix2", ⟨"MP3", some 320⟩⟩

/-- Candidate whose bitrate is known to be zero; exercises the JavaScript
truthiness guard in the filter. -/
def zeroBitrateResult : SearchResult :=
  ⟨"t", "u", 0, 0, "ix", ⟨"MP3", some 0⟩⟩

/-- Profile with a minimum bitrate of 100 kbps. -/
def minBitrateProfile : QualityProfile :=
  ⟨"q1", "min100", ["MP3"], some 100, none, false⟩


/-! Embedding of MonitoringService title normalization
(`src/main/services/MonitoringService.ts` lines 233-239) and of the
"already owned" comparison in checkArtistForNewReleases (lines 156-165). -/

/-- Model of JavaScript `String.prototype.toLowerCase` on ASCII titles. -/
def jsLower (s : String) : String := String.mk (s.toList.map Char.toLower)

/-- JavaScript regex word character \\w: ASCII letters, digits, underscore. -/
def isWordChar (c : Char) : Bool := c.isAlphanum || c == '_'

/-- JavaScript regex whitespace \\s restricted to the ASCII whitespace
characters. -/
def isJsSpace (c : Char) : Bool :=
  c == ' ' || c == '\t' || c == '\n' || c == '\r' || c == '\x0b' || c == '\x0c'

/-- Model of `String.prototype.trim`: drop leading and trailing whitespace. -/
def trimChars (cs : List Char) : List Char :=
  ((cs.dropWhile isJsSpace).reverse.dropWhile isJsSpace).reverse

/-- Model of `.replace(/\\s+/g, ' ')`: every maximal run of whitespace becomes
one space.  The boolean records whether the previous character belonged to a
whitespace run. -/
def collapseWsAux : Bool → List Char → List Char
  | _, [] => []
  | prevSpace, c :: rest =>
      if isJsSpace c then
        if prevSpace then collapseWsAux true rest
        else ' ' :: collapseWsAux true rest
      else c :: collapseWsAux false rest

/-- MonitoringService.normalizeTitle: lowercase, trim, strip every character
that is neither word nor whitespace (`.replace(/[^\\w\\s]/g, '')`), collapse
whitespace runs to single spaces. -/
def normalizeTitle (title : String) : String :=
  String.mk (collapseWsAux false
    ((trimChars ((jsLower title).toList)).filter (fun c => isWordChar c || isJsSpace c)))

/-- The "already owned" test of checkArtistForNewReleases: the set of
normalized existing titles contains the normalized discography title. -/
def treatedAsOwned (existingAlbums : List String) (title : String) : Bool :=
  (existingAlbums.map normalizeTitle).contains (normalizeTitle title)

/-- The new-release diff of checkArtistForNewReleases: discography entries
whose normalized title is not among the normalized existing titles. -/
def newAlbums (existingAlbums : List String) (discographyAlbums : List String) : List String :=
  let existingTitles := existingAlbums.map normalizeTitle
  discographyAlbums.filter (fun t => !(existingTitles.contains (normalizeTitle t)))

/-! Embedding of the IndexerService result Normalizer
(`src/main/services/IndexerService.ts`).  JavaScript numbers that can be NaN
are modelled as `Option ℤ` with `none` for NaN. -/

/-- Numeric value of a list of decimal digits. -/
def digitsToNat (ds : List Char) : ℕ := ds.foldl (fun a c => a * 10 + (c.toNat - 48)) 0

/-- Model of JavaScript `parseInt(s, 10)`: skip leading whitespace, optional
sign, then the maximal run of leading digits; `none` (NaN) when that run is
empty. -/
def jsParseInt (s : String) : Option ℤ :=
  let cs := s.toList.dropWhile isJsSpace
  match cs with
  | '-' :: rest =>
      let ds := rest.takeWhile Char.isDigit
      if ds.isEmpty then none else some (-(digitsToNat ds : ℤ))
  | '+' :: rest =>
      let ds := rest.takeWhile Char.isDigit
      if ds.isEmpty then none else some ((digitsToNat ds : ℤ))
  | _ =>
      let ds := cs.takeWhile Char.isDigit
      if ds.isEmpty then none else some ((digitsToNat ds : ℤ))

/-- IndexerService.calculateAge (lines 333-342).  `new Date(pubDate)` is
modelled by the oracle `dateParse`, returning epoch milliseconds or `none`
for an Invalid Date, whose `getTime()` is NaN.  The subtraction and
`Math.floor` propagate NaN, and the catch clause never fires because the
Date constructor does not throw, so an unparseable date yields `none`. -/
def calculateAge (now : ℤ) (dateParse : String → Option ℤ) (pubDate : String) : Option ℤ :=
  match dateParse pubDate with
  | some t => some ((now - t).fdiv 86400000)
  | none => none

/-- The field values extracted from one XML `<item>` by extractXmlValue
(which yields `""` when the tag is absent) and extractNewznabAttr (which
yields null, modelled `none`, when the attribute is absent). -/
structure XmlItemFields where
  title : String
  link : String
  size : String
  pubDate : String
  formatAttr : Option String
  bitrateAttr : Option String
deriving DecidableEq, Repr

/-- The SearchResult produced by the Normalizer, with NaN-capable numeric
fields: `size`/`age` are `none` when NaN, `bitrate` is `none` when the field
is undefined and `some none` when it holds NaN. -/
structure ParsedCandidate where
  title : String
  nzbUrl : String
  size : Option ℤ
  age : Option ℤ
  indexer : String
  format : String
  bitrate : Option (Option ℤ)
deriving DecidableEq, Repr

/-- IndexerService.parseXmlItem (lines 224-258): reject when title or link is
empty; format defaults to "Unknown" via `|| 'Unknown'`; bitrate is undefined
unless the attribute string is truthy; size and age fall back to 0 only when
the raw string is empty (falsy), otherwise parseInt / calculateAge may
produce NaN. -/
def parseXmlItem (now : ℤ) (dateParse : String → Option ℤ) (item : XmlItemFields)
    (indexerName : String) : Option ParsedCandidate :=
  if item.title = "" ∨ item.link = "" then none
  else
    let format := match item.formatAttr with
      | some v => if v = "" then "Unknown" else v
      | none => "Unknown"
    let bitrate : Option (Option ℤ) := match item.bitrateAttr with
      | some v => if v = "" then none else some (jsParseInt v)
      | none => none
    let age := if item.pubDate = "" then some 0 else calculateAge now dateParse item.pubDate
    some ⟨item.title, item.link,
      (if item.size = "" then some 0 else jsParseInt item.size), age, indexerName, format, bitrate⟩

/-- One JSON Newznab item; absent strings are modelled as `""` (falsy) and an
absent `newznab:attr` array as `none`; the single-object case is already
wrapped into a one-element list. -/
structure NewznabJsonItem where
  title : String
  link : String
  size : String
  pubDate : String
  attrs : Option (List (String × String))
deriving DecidableEq, Repr

/-- One step of the attribute loop in parseNewznabItem: a "format" attribute
overwrites the format with its raw value, a "bitrate" attribute overwrites
the bitrate with `parseInt` of its value. -/
def applyNewznabAttr (acc : String × Option (Option ℤ)) (attr : String × String) :
    String × Option (Option ℤ) :=
  if attr.1 = "format" then (attr.2, acc.2)
  else if attr.1 = "bitrate" then (acc.1, some (jsParseInt attr.2))
  else acc

/-- IndexerService.parseNewznabItem (lines 263-307), the JSON twin of
parseXmlItem: format starts at "Unknown", bitrate undefined, then the
attribute list is folded over. -/
def parseNewznabItem (now : ℤ) (dateParse : String → Option ℤ) (item : NewznabJsonItem)
    (indexerName : String) : Option ParsedCandidate :=
  if item.title = "" ∨ item.link = "" then none
  else
    let fb := match item.attrs with
      | some attrs => attrs.foldl applyNewznabAttr ("Unknown", none)
      | none => (("Unknown" : String), (none : Option (Option ℤ)))
    let age := if item.pubDate = "" then some 0 else calculateAge now dateParse item.pubDate
    some ⟨item.title, item.link,
      (if item.size = "" then some 0 else jsParseInt item.size), age, indexerName, fb.1, fb.2⟩

/-- Date-parsing oracle of an environment in which the given publish dates do
not parse: every `new Date` call yields an Invalid Date. -/
def noParseDate : String → Option ℤ := fun _ => none

deriving instance DecidableEq for Except

/-- Embedded indexer configuration record, reduced to the fields the fan-out
search inspects. -/
structure IndexerConfig where
  id : String
  name : String
  enabled : Bool
deriving DecidableEq, Repr

/-- IndexerService.searchAlbum (`src/main/services/IndexerService.ts` lines
86-115).  The backend query of each indexer (searchIndexer, a network call
plus response parsing) is modelled by pairing each configured indexer with
its outcome: `Except.ok rs` for a successful normalized result list and
`Except.error ()` for a throw or timeout.  The per-indexer
`.catch(() => [])` turns a failed outcome into an empty contribution; the
flattened union is then optionally filtered and ranked. -/
def searchAlbum (indexers : List (IndexerConfig × Except Unit (List SearchResult)))
    (qualityProfile : Option QualityProfile) : Except String (List SearchResult) :=
  let enabledIndexers := indexers.filter (fun p => p.1.enabled)
  if enabledIndexers.length = 0 then
    Except.error "No enabled indexers configured"
  else
    let results := enabledIndexers.map (fun p =>
      match p.2 with
      | Except.ok rs => rs
      | Except.error _ => [])
    let allResults := results.flatten
    match qualityProfile with
    | some qp => Except.ok (rankResults (filterResults allResults qp) qp)
    | none => Except.ok allResults

/-- Download status enumeration (`shared/types`). -/
inductive DownloadStatus where
  | queued
  | downloading
  | completed
  | failed
deriving DecidableEq, Repr

/-- Embedded `Download` record (`shared/types`); timestamps are epoch
milliseconds. -/
structure Download where
  id : String
  albumId : String
  sabnzbdId : Option String
  indexerName : Option String
  status : DownloadStatus
  progress : ℚ
  qualityProfileId : Option String
  initiatedAt : ℤ
  completedAt : Option ℤ
  errorMessage : Option String
deriving DecidableEq, Repr

/-- The `Partial<Download>` update object passed to DownloadRepository.update:
`none` models an undefined field, which the update leaves untouched. -/
structure DownloadUpdates where
  sabnzbdId : Option String
  status : Option DownloadStatus
  progress : Option ℚ
  completedAt : Option ℤ
  errorMessage : Option String
deriving DecidableEq, Repr

namespace DownloadRepository

/-- DownloadRepository.findById: first row with the given id. -/
def findById (repo : List Download) (id : String) : Option Download :=
  repo.find? (fun d => d.id == id)

/-- Effect of the SET clauses built by DownloadRepository.update on one row:
each defined update field overwrites the column, every other column keeps its
stored value. -/
def applyUpdates (d : Download) (u : DownloadUpdates) : Download :=
  ⟨d.id, d.albumId,
   (match u.sabnzbdId with | some v => some v | none => d.sabnzbdId),
   d.indexerName,
   u.status.getD d.status,
   u.progress.getD d.progress,
   d.qualityProfileId,
   d.initiatedAt,
   (match u.completedAt with | some v => some v | none => d.completedAt),
   (match u.errorMessage with | some v => some v | none => d.errorMessage)⟩

/-- DownloadRepository.update (`src/unnamed/part_005` lines 89-126): apply the
SET clauses to every row matching the id, then return findById of the updated
table together with the new table. -/
def update (repo : List Download) (id : String) (u : DownloadUpdates) :
    Option Download × List Download :=
  let repo2 := repo.map (fun d => if d.id == id then applyUpdates d u else d)
  (findById repo2 id, repo2)

/-- DownloadRepository.updateStatus (lines 128-136): always sets status and
progress, and sets completed_at to the current time exactly when the new
status is completed or failed. -/
def updateStatus (repo : List Download) (id : String) (status : DownloadStatus)
    (progress : ℚ) (now : ℤ) : Option Download × List Download :=
  let completedAt : Option ℤ :=
    if status = DownloadStatus.completed ∨ status = DownloadStatus.failed
    then some now else none
  update repo id ⟨none, some status, some progress, completedAt, none⟩

end DownloadRepository

/-- Status report returned by the download client for one job
(SabnzbdService.getDownloadStatus). -/
structure PollStatus where
  status : DownloadStatus
  progress : ℚ
  errorMessage : Option String
deriving DecidableEq, Repr

/-- DownloadService.updateDownloadStatus (`src/main/services/DownloadService.ts`
lines 134-177).  The download client is the oracle `poll`; the returned
boolean records whether the client was contacted.  Terminal downloads are
answered from the stored record before any client interaction; the
`!download.sabnzbdId` and errorMessage truthiness checks of the source are
modelled with `getD ""`. -/
def updateDownloadStatus (repo : List Download) (sabnzbdConfigured : Bool)
    (poll : String → PollStatus) (now : ℤ) (downloadId : String) :
    Except String (Download × List Download × Bool) :=
  match DownloadRepository.findById repo downloadId with
  | none => Except.error "Download not found"
  | some download =>
    if download.status = DownloadStatus.completed ∨ download.status = DownloadStatus.failed then
      Except.ok (download, repo, false)
    else if download.sabnzbdId.getD "" = "" then
      Except.error "Download does not have a SABnzbd ID"
    else if ¬ sabnzbdConfigured then
      Except.error "SABnzbd is not configured"
    else
      let st := poll (download.sabnzbdId.getD "")
      let u1 := DownloadRepository.updateStatus repo downloadId st.status st.progress now
      match u1.1 with
      | none => Except.error "Failed to update download"
      | some updatedDownload =>
        if st.status = DownloadStatus.failed ∧ st.errorMessage.getD "" ≠ "" then
          let u2 := DownloadRepository.update u1.2 downloadId
            ⟨none, none, none, none, st.errorMessage⟩
          match u2.1 with
          | some d2 => Except.ok (d2, u2.2, true)
          | none => Except.error "Failed to update download"
        else Except.ok (updatedDownload, u1.2, true)

/-- Sample download already in the completed status. -/
def sampleCompletedDownload : Download :=
  ⟨"d1", "a1", some "sab1", some "ix1", DownloadStatus.completed, 100, some "p1", 0, some 5, none⟩

/-- Sample download still queued. -/
def sampleQueuedDownload : Download :=
  ⟨"d2", "a2", some "sab2", none, DownloadStatus.queued, 40, none, 0, none, none⟩

/-- Embedded `Artist` record (`shared/types`), reduced to the fields the
monitoring pass inspects; lastChecked is epoch milliseconds. -/
structure Artist where
  id : String
  name : String
  monitored : Bool
  lastChecked : Option ℤ
deriving DecidableEq, Repr

/-- Observable effect of one per-artist monitoring check: whether the
discography was fetched, which discography titles were processed as new
releases (album created and download initiated), and the new last-checked
timestamp (`none` when left unchanged). -/
structure CheckEffect where
  fetchedDiscography : Bool
  processedNewAlbums : List String
  updatedLastChecked : Option ℤ
deriving DecidableEq, Repr

/-- The effect of a skipped check: nothing fetched, nothing processed,
timestamp untouched. -/
def noCheckEffect : CheckEffect := ⟨false, [], none⟩

/-- MonitoringService.checkArtistForNewReleases
(`src/main/services/MonitoringService.ts` lines 140-185): skip when the
last-checked timestamp is under 24 hours old, otherwise fetch the
discography, process the albums missing from the library and stamp
lastChecked with the current time. -/
def checkArtistForNewReleases (now : ℤ) (artist : Artist) (discographyAlbums : List String)
    (existingAlbums : List String) : CheckEffect :=
  match artist.lastChecked with
  | some t =>
      if ((now - t : ℤ) : ℚ) / (1000 * 60 * 60) < 24 then noCheckEffect
      else ⟨true, newAlbums existingAlbums discographyAlbums, some now⟩
  | none => ⟨true, newAlbums existingAlbums discographyAlbums, some now⟩

/-- MonitoringService.checkForNewReleases (the monitoring pass body): run the
per-artist check over every monitored artist, with the metadata service and
album repository as oracles. -/
def checkForNewReleases (now : ℤ) (artists : List Artist)
    (discography : String → List String) (existing : String → List String) :
    List (String × CheckEffect) :=
  (artists.filter (fun a => a.monitored)).map
    (fun a => (a.id, checkArtistForNewReleases now a (discography a.name) (existing a.id)))

/-- MonitoringService.checkArtist (lines 244-256): resolve the artist, reject
unknown or unmonitored artists, else defer to checkArtistForNewReleases. -/
def checkArtist (artists : List Artist) (artistId : String) (now : ℤ)
    (discographyAlbums : List String) (existingAlbums : List String) :
    Except String CheckEffect :=
  match artists.find? (fun a => a.id == artistId) with
  | none => Except.error "Artist not found"
  | some artist =>
      if ¬ artist.monitored then Except.error "Artist is not monitored"
      else Except.ok (checkArtistForNewReleases now artist discographyAlbums existingAlbums)

/-- Monitored artist last checked 10 hours before the sample current time. -/
def throttledArtist : Artist := ⟨"a1", "Pink Floyd", true, some 0⟩

namespace QualityProfileRepository

/-- Effect of the SQL statement clearing every default flag
(`UPDATE quality_profiles SET is_default = 0`). -/
def clearDefaults (l : List QualityProfile) : List QualityProfile :=
  l.map (fun p => ⟨p.id, p.name, p.formats, p.minBitrate, p.maxFileSize, false⟩)

/-- QualityProfileRepository.findById. -/
def findById (l : List QualityProfile) (id : String) : Option QualityProfile :=
  l.find? (fun p => p.id == id)

/-- QualityProfileRepository.findDefault: first row with is_default = 1. -/
def findDefault (l : List QualityProfile) : Option QualityProfile :=
  l.find? (fun p => p.isDefault)

/-- The fields of a profile to create (Omit id and createdAt). -/
structure NewProfile where
  name : String
  formats : List String
  minBitrate : Option ℚ
  maxFileSize : Option ℚ
  isDefault : Bool
deriving DecidableEq, Repr

/-- QualityProfileRepository.create (`src/unnamed/part_006` lines 9-33): when
the new profile is default, clear all defaults first, then insert the row. -/
def create (l : List QualityProfile) (profile : NewProfile) (newId : String) :
    List QualityProfile :=
  let l1 := if profile.isDefault then clearDefaults l else l
  l1 ++ [⟨newId, profile.name, profile.formats, profile.minBitrate, profile.maxFileSize,
    profile.isDefault⟩]

/-- The `Partial<QualityProfile>` update object; `none` models an undefined
field that builds no SET clause. -/
structure ProfileUpdates where
  name : Option String
  formats : Option (List String)
  minBitrate : Option ℚ
  maxFileSize : Option ℚ
  isDefault : Option Bool
deriving DecidableEq, Repr

/-- Effect of the SET clauses of QualityProfileRepository.update on a row. -/
def applyProfileUpdates (p : QualityProfile) (u : ProfileUpdates) : QualityProfile :=
  ⟨p.id, u.name.getD p.name, u.formats.getD p.formats,
   (match u.minBitrate with | some v => some v | none => p.minBitrate),
   (match u.maxFileSize with | some v => some v | none => p.maxFileSize),
   u.isDefault.getD p.isDefault⟩

/-- QualityProfileRepository.update (lines 65-107): when isDefault is being
set to true, clear all defaults first, then apply the SET clauses to the rows
matching the id. -/
def update (l : List QualityProfile) (id : String) (u : ProfileUpdates) :
    List QualityProfile :=
  let l1 := if u.isDefault = some true then clearDefaults l else l
  l1.map (fun p => if p.id == id then applyProfileUpdates p u else p)

/-- QualityProfileRepository.setDefault (lines 113-117): clear every default
flag, then set it on the rows matching the id. -/
def setDefault (l : List QualityProfile) (id : String) : List QualityProfile :=
  (clearDefaults l).map (fun p =>
    if p.id == id then ⟨p.id, p.name, p.formats, p.minBitrate, p.maxFileSize, true⟩ else p)

end QualityProfileRepository

/-- The default-exclusivity invariant: at most one profile row has
isDefault = true. -/
abbrev AtMostOneDefault (l : List QualityProfile) : Prop :=
  (l.filter (fun p => p.isDefault)).length ≤ 1

/-- A second, non-default profile used to exercise setDefault. -/
def altProfile : QualityProfile := ⟨"q2", "alt", ["MP3"], none, none, false⟩

/-! Helper lemmas about the ranking comparator and the sorted list. -/

theorem scoreLE_trans (a b c : SearchResult × ℚ) (hab : scoreLE a b) (hbc : scoreLE b c) :
    scoreLE a c := by
  simp only [scoreLE, decide_eq_true_eq] at *
  exact le_trans hbc hab

theorem scoreLE_total (a b : SearchResult × ℚ) : scoreLE a b || scoreLE b a := by
  simp only [scoreLE, Bool.or_eq_true, decide_eq_true_eq]
  exact le_total b.2 a.2

theorem proj_scored (results : List SearchResult) (profile : QualityProfile) :
    (results.map (fun r => (r, scoreResult profile r))).map
      (fun item : SearchResult × ℚ => item.1) = results := by
  induction results with
  | nil => rfl
  | cons r rs ih => simp only [List.map_cons, ih]

theorem snd_of_mem_sorted {results : List SearchResult} {profile : QualityProfile}
    {p : SearchResult × ℚ}
    (hp : p ∈ (results.map (fun r => (r, scoreResult profile r))).mergeSort scoreLE) :
    p.2 = scoreResult profile p.1 := by
  have hmem := (List.mergeSort_perm
    (results.map (fun r => (r, scoreResult profile r))) scoreLE).mem_iff.mp hp
  simp only [List.mem_map] at hmem
  obtain ⟨r, _, rfl⟩ := hmem
  rfl

theorem rank_pairwise (results : List SearchResult) (profile : QualityProfile) :
    (rankResults results profile).Pairwise
      (fun a b => scoreResult profile b ≤ scoreResult profile a) := by
  have hs := List.sorted_mergeSort scoreLE_trans scoreLE_total
    (results.map (fun r => (r, scoreResult profile r)))
  unfold rankResults
  rw [List.pairwise_map]
  refine hs.imp_of_mem ?_
  intro a b ha hb hab
  have ha2 := snd_of_mem_sorted ha
  have hb2 := snd_of_mem_sorted hb
  simp only [scoreLE, decide_eq_true_eq] at hab
  rw [← ha2, ← hb2]
  exact hab

theorem rank_perm (results : List SearchResult) (profile : QualityProfile) :
    (rankResults results profile).Perm results := by
  unfold rankResults
  have h1 := (List.mergeSort_perm
    (results.map (fun r => (r, scoreResult profile r))) scoreLE).map
    (fun item : SearchResult × ℚ => item.1)
  rw [proj_scored] at h1
  exact h1

theorem rank_stable (results : List SearchResult) (profile : QualityProfile)
    (a b : SearchResult) (hscore : scoreResult profile b ≤ scoreResult profile a)
    (hsub : [a, b].Sublist results) :
    [a, b].Sublist (rankResults results profile) := by
  unfold rankResults
  have h1 := hsub.map (fun r => (r, scoreResult profile r))
  have h2 := List.pair_sublist_mergeSort scoreLE_trans scoreLE_total
    (by simpa [scoreLE] using hscore) h1
  have h3 := h2.map (fun item : SearchResult × ℚ => item.1)
  simpa using h3

theorem select_head (results : List SearchResult) (profile : QualityProfile) :
    selectBestResult results profile =
      (rankResults (filterResults results profile) profile).head? := by
  simp only [selectBestResult]
  split
  case isTrue h =>
    have he : filterResults results profile = [] := List.length_eq_zero.mp h
    rw [he]
    simp [rankResults]
  case isFalse h => rfl

theorem sizeAdjust_eq (x : ℚ) :
    (if x < 10 then (-20 : ℚ) else if x > 500 then -10 else 0) =
      -(if x < 10 then (20 : ℚ) else 0) - (if x > 500 then (10 : ℚ) else 0) := by
  by_cases h1 : x < 10
  · have h2 : ¬ x > 500 := by linarith
    simp [h1, h2]
  · by_cases h2 : x > 500
    · simp [h1, h2]
    · simp [h1, h2]

theorem score_formula (profile : QualityProfile) (r : SearchResult) (idx : ℕ)
    (h : profile.formats.findIdx? (fun f => jsUpper f == jsUpper r.quality.format) = some idx) :
    scoreResult profile r =
      ((profile.formats.length - idx : ℕ) : ℚ) * 20
        + (match r.quality.bitrate with
           | some b =>
               min (b / (if (["FLAC", "ALAC", "WAV"] : List String).contains
                            (jsUpper r.quality.format)
                          then (1411 : ℚ) else 320) * 50) 50
           | none => 0)
        - min r.age 30
        - (if r.size / (1024 * 1024) < 10 then (20 : ℚ) else 0)
        - (if r.size / (1024 * 1024) > 500 then (10 : ℚ) else 0) := by
  simp only [scoreResult, losslessFormats, h]
  rw [sizeAdjust_eq]
  rcases hb : r.quality.bitrate with _ | b
  · simp only [hb]
    ring
  · simp only [hb]
    rcases eq_or_ne b 0 with rfl | hb0
    · have hz : ∀ c : ℚ, min ((0 : ℚ) / c * 50) 50 = 0 := by
        intro c
        norm_num
      simp only [ne_eq, not_true_eq_false, if_false, hz]
      ring
    · simp only [ne_eq, hb0, not_false_eq_true, if_true]
      ring

/-- C1: for every candidate list and quality profile, rankResults assigns each
candidate whose format occurs (case-insensitively, 0-based first position idx)
in profile.formats the additive score
(len(formats) − idx)·20 + (when bitrate known) min(bitrate/ceiling·50, 50)
with ceiling 1411 for FLAC/ALAC/WAV and 320 otherwise, minus min(ageDays, 30),
minus 20 when size < 10 MB and minus 10 when size > 500 MB, with no floor or
ceiling on the total; it returns the full candidate list stable-sorted
descending by this score (ties keep input order), and selectBestResult
returns the head of the ranked filtered list, i.e. no candidate when it is
empty. -/
theorem rankResults_additive_score_stable_sort_selectBest
    (results : List SearchResult) (profile : QualityProfile) :
    (∀ r : SearchResult, ∀ idx : ℕ,
        profile.formats.findIdx? (fun f => jsUpper f == jsUpper r.quality.format) = some idx →
        scoreResult profile r =
          ((profile.formats.length - idx : ℕ) : ℚ) * 20
            + (match r.quality.bitrate with
               | some b =>
                   min (b / (if (["FLAC", "ALAC", "WAV"] : List String).contains
                                (jsUpper r.quality.format)
                              then (1411 : ℚ) else 320) * 50) 50
               | none => 0)
            - min r.age 30
            - (if r.size / (1024 * 1024) < 10 then (20 : ℚ) else 0)
            - (if r.size / (1024 * 1024) > 500 then (10 : ℚ) else 0)) ∧
    (rankResults results profile).Pairwise
      (fun a b => scoreResult profile b ≤ scoreResult profile a) ∧
    (rankResults results profile).Perm results ∧
    (∀ a b : SearchResult, scoreResult profile b ≤ scoreResult profile a →
        [a, b].Sublist results → [a, b].Sublist (rankResults results profile)) ∧
    selectBestResult results profile =
      (rankResults (filterResults results profile) profile).head? :=
  ⟨fun r idx h => score_formula profile r idx h,
   rank_pairwise results profile,
   rank_perm results profile,
   fun a b h1 h2 => rank_stable results profile a b h1 h2,
   select_head results profile⟩

/-- Witness for C1, instantiated at the end-to-end scenario of the
specification: candidate A (FLAC) is scored by the additive formula, the
pair (A, C) keeps its input order in the ranking, and selectBestResult is
the head of the ranked filtered list. -/
theorem rankResults_additive_score_stable_sort_selectBest_witness :
    scoreResult scenarioProfile candidateA =
      ((scenarioProfile.formats.length - 0 : ℕ) : ℚ) * 20
        + (match candidateA.quality.bitrate with
           | some b =>
               min (b / (if (["FLAC", "ALAC", "WAV"] : List String).contains
                            (jsUpper candidateA.quality.format)
                          then (1411 : ℚ) else 320) * 50) 50
           | none => 0)
        - min candidateA.age 30
        - (if candidateA.size / (1024 * 1024) < 10 then (20 : ℚ) else 0)
        - (if candidateA.size / (1024 * 1024) > 500 then (10 : ℚ) else 0) ∧
    [candidateA, candidateC].Sublist (rankResults [candidateA, candidateC] scenarioProfile) ∧
    selectBestResult [candidateA, candidateB, candidateC] scenarioProfile =
      (rankResults (filterResults [candidateA, candidateB, candidateC] scenarioProfile)
        scenarioProfile).head? :=
  ⟨(rankResults_additive_score_stable_sort_selectBest [candidateA, candidateC]
      scenarioProfile).1 candidateA 0 (by decide),
   (rankResults_additive_score_stable_sort_selectBest [candidateA, candidateC]
      scenarioProfile).2.2.2.1 candidateA candidateC
      (by norm_num +decide [scoreResult, scenarioProfile, candidateA, candidateC,
        jsUpper, losslessFormats, List.findIdx?])
      (List.Sublist.refl _),
   (rankResults_additive_score_stable_sort_selectBest [candidateA, candidateB, candidateC]
      scenarioProfile).2.2.2.2⟩

/-! Helper lemmas for the filter. -/

theorem filter_singleton_ne_nil_iff (c : SearchResult) (p : QualityProfile) :
    filterResults [c] p ≠ [] ↔ resultPassesFilter p c = true := by
  cases h : resultPassesFilter p c <;> simp [filterResults, List.filter, h]

theorem resultPassesFilter_iff (p : QualityProfile) (c : SearchResult) :
    resultPassesFilter p c = true ↔
      ((p.formats.map jsUpper).contains (jsUpper c.quality.format) = true ∧
       (∀ m b : ℚ, p.minBitrate = some m → c.quality.bitrate = some b →
          m ≠ 0 → b ≠ 0 → m ≤ b) ∧
       (∀ mx : ℚ, p.maxFileSize = some mx → mx ≠ 0 → c.size ≤ mx * 1024 * 1024)) := by
  unfold resultPassesFilter numTruthy
  rcases hm : p.minBitrate with _ | m <;> rcases hb : c.quality.bitrate with _ | b <;>
    rcases hx : p.maxFileSize with _ | mx <;>
      simp [hm, hb, hx, not_lt, and_assoc] <;> intros <;> tauto

/-- C2 counterexample: a candidate with a known bitrate of 0 against a profile
with minimum bitrate 100 passes the filter (JavaScript treats bitrate 0 as
falsy and skips the check), yet the claim's acceptance condition (bitrate
known and ≥ minimum) is false, so the claimed equivalence fails at this
input. -/
theorem filter_zero_bitrate_counterexample :
    filterResults [zeroBitrateResult] minBitrateProfile ≠ [] ∧
    ¬ ((minBitrateProfile.formats.map jsUpper).contains
          (jsUpper zeroBitrateResult.quality.format) = true ∧
       (∀ m b : ℚ, minBitrateProfile.minBitrate = some m →
          zeroBitrateResult.quality.bitrate = some b → m ≤ b) ∧
       (∀ mx : ℚ, minBitrateProfile.maxFileSize = some mx →
          zeroBitrateResult.size ≤ mx * 1024 * 1024)) := by
  constructor
  · decide
  · rintro ⟨-, h2, -⟩
    have h0 := h2 100 0 rfl rfl
    norm_num at h0

/-- C2 amended: filterResults on a single candidate is non-empty iff the
candidate's format appears case-insensitively in profile.formats, AND (the
minimum bitrate is unset or zero, OR the candidate's bitrate is unknown or
zero, OR the bitrate is at least the minimum), AND (the maximum file size is
unset or zero, OR sizeBytes ≤ maxFileSizeMB·1024·1024); in particular a
candidate with unknown bitrate is never rejected by the minimum-bitrate
rule. -/
theorem filterResults_singleton_iff (c : SearchResult) (p : QualityProfile) :
    filterResults [c] p ≠ [] ↔
      ((p.formats.map jsUpper).contains (jsUpper c.quality.format) = true ∧
       (∀ m b : ℚ, p.minBitrate = some m → c.quality.bitrate = some b →
          m ≠ 0 → b ≠ 0 → m ≤ b) ∧
       (∀ mx : ℚ, p.maxFileSize = some mx → mx ≠ 0 → c.size ≤ mx * 1024 * 1024)) :=
  (filter_singleton_ne_nil_iff c p).trans (resultPassesFilter_iff p c)

/-- Witness for the amended C2 at a concrete accepted candidate. -/
theorem filterResults_singleton_iff_witness :
    filterResults [candidateA] scenarioProfile ≠ [] :=
  (filterResults_singleton_iff candidateA scenarioProfile).mpr
    ⟨by decide,
     fun m b hm hb => by
       simp only [scenarioProfile] at hm
       simp only [candidateA] at hb
       intro _ _
       rw [Option.some_inj] at hm hb
       rw [← hm, ← hb]
       norm_num,
     fun mx hmx => by
       simp only [scenarioProfile] at hmx
       intro _
       rw [Option.some_inj] at hmx
       rw [← hmx]
       norm_num [candidateA]⟩

/-- C3 counterexample: under normalizeTitle the owned album "The Wall"
normalizes to "the wall" while the discography entry "Wall, The!!"
normalizes to "wall the" — not the same string — so the entry is NOT treated
as already owned; it survives the new-release diff and is reported missing,
contradicting the claimed scenario. -/
theorem normalizeTitle_word_order_counterexample :
    normalizeTitle "The Wall" = "the wall" ∧
    normalizeTitle "Wall, The!!" = "wall the" ∧
    normalizeTitle "Wall, The!!" ≠ normalizeTitle "The Wall" ∧
    treatedAsOwned ["The Wall"] "Wall, The!!" = false ∧
    newAlbums ["The Wall"] ["Wall, The!!"] = ["Wall, The!!"] := by decide

/-- C3 amended: the "already owned" check compares titles normalized by
lowercasing, trimming, stripping punctuation and collapsing whitespace, so an
entry differing from an owned title only in punctuation or case ("The
Wall!!") is treated as already owned and excluded from the new-release diff;
word order is not normalized, so "Wall, The!!" does not match "The Wall" and
is treated as a new (missing) release. -/
theorem normalizeTitle_punctuation_insensitive :
    normalizeTitle "The Wall!!" = normalizeTitle "The Wall" ∧
    treatedAsOwned ["The Wall"] "The Wall!!" = true ∧
    newAlbums ["The Wall"] ["The Wall!!", "Hey You"] = ["Hey You"] ∧
    treatedAsOwned ["The Wall"] "Wall, The!!" = false ∧
    newAlbums ["The Wall"] ["Wall, The!!"] = ["Wall, The!!"] := by decide

/-- C4: evaluating the Normalizer at an item whose size and publish date are
present but unparseable: `parseInt("not-a-number")` is NaN and
`new Date("not-a-date")` is an Invalid Date whose `getTime()` is NaN, so the
produced candidate's size and age are NaN (modelled `none`) and in
particular not the 0 the claim states; the fallback to 0 only fires for the
absent (empty-string) case, while a parseable date yields the floor of the
elapsed whole days. -/
theorem parseXmlItem_unparseable_yields_nan :
    (parseXmlItem 0 noParseDate ⟨"t", "u", "not-a-number", "not-a-date", none, none⟩ "ix").map
        (fun c => (c.size, c.age)) = some (none, none) ∧
    (parseXmlItem 0 noParseDate ⟨"t", "u", "not-a-number", "not-a-date", none, none⟩ "ix").map
        (fun c => c.size) ≠ some (some 0) ∧
    (parseXmlItem 0 noParseDate ⟨"t", "u", "not-a-number", "not-a-date", none, none⟩ "ix").map
        (fun c => c.age) ≠ some (some 0) ∧
    (parseXmlItem 0 noParseDate ⟨"t", "u", "", "", none, none⟩ "ix").map
        (fun c => (c.size, c.age)) = some (some 0, some 0) ∧
    (parseXmlItem 17 (fun d => if d = "day-two" then some (-86400000) else none)
        ⟨"t", "u", "123", "day-two", none, none⟩ "ix").map (fun c => (c.size, c.age))
      = some (some 123, some 1) := by decide

/-- C5 counterexample: an XML item with no format attribute is normalized
with quality.format "Unknown", which is not the claimed exact string
"UNKNOWN"; moreover a present format attribute is stored raw ("flac" stays
lowercase), so the Normalizer does not produce normalized uppercase tags. -/
theorem parse_format_not_uppercase_counterexample :
    (parseXmlItem 0 noParseDate ⟨"t", "u", "", "", none, none⟩ "ix").map (fun c => c.format)
      = some "Unknown" ∧
    (("Unknown" : String) ≠ "UNKNOWN") ∧
    (parseXmlItem 0 noParseDate ⟨"t", "u", "", "", some "flac", none⟩ "ix").map
        (fun c => c.format) = some "flac" := by decide

/-- C5 amended: for every accepted raw item lacking a format attribute (XML
path: no newznab format attribute; JSON path: no attribute array), the
produced candidate's quality.format is exactly the string "Unknown" and,
when the bitrate attribute is likewise absent, its bitrate is omitted
(undefined, not zero); format values are stored raw and only uppercased by
the downstream filter and ranker comparisons. -/
theorem parse_format_default_bitrate_omitted (now : ℤ) (dateParse : String → Option ℤ)
    (item : XmlItemFields) (jitem : NewznabJsonItem) (ix : String)
    (h1 : item.formatAttr = none) (h2 : item.bitrateAttr = none)
    (h3 : item.title ≠ "") (h4 : item.link ≠ "")
    (h5 : jitem.attrs = none) (h6 : jitem.title ≠ "") (h7 : jitem.link ≠ "") :
    (parseXmlItem now dateParse item ix).map (fun c => (c.format, c.bitrate))
        = some ("Unknown", none) ∧
    (parseNewznabItem now dateParse jitem ix).map (fun c => (c.format, c.bitrate))
        = some ("Unknown", none) := by
  constructor
  · simp [parseXmlItem, h1, h2, h3, h4]
  · simp [parseNewznabItem, h5, h6, h7]

/-- Witness for the amended C5 at concrete attribute-free items. -/
theorem parse_format_default_bitrate_omitted_witness :
    (parseXmlItem 0 noParseDate ⟨"t", "u", "", "", none, none⟩ "ix").map
        (fun c => (c.format, c.bitrate)) = some ("Unknown", none) ∧
    (parseNewznabItem 0 noParseDate ⟨"t", "u", "", "", none⟩ "ix").map
        (fun c => (c.format, c.bitrate)) = some ("Unknown", none) :=
  parse_format_default_bitrate_omitted 0 noParseDate ⟨"t", "u", "", "", none, none⟩
    ⟨"t", "u", "", "", none⟩ "ix" rfl rfl (by decide) (by decide) rfl (by decide) (by decide)

theorem flatten_default_eq_filterMap
    (l : List (IndexerConfig × Except Unit (List SearchResult))) :
    (l.map (fun p =>
      match p.2 with
      | Except.ok rs => rs
      | Except.error _ => ([] : List SearchResult))).flatten
      = (l.filterMap (fun p => p.2.toOption)).flatten := by
  induction l with
  | nil => rfl
  | cons p rest ih =>
      rcases p with ⟨cfg, out⟩
      cases out <;> simp [List.filterMap_cons, Except.toOption, ih]

/-- C6: whenever at least one configured indexer is enabled, a fan-out search
with failed backends still resolves: without a profile it returns exactly the
flattened union of the result lists of the indexers whose query succeeded
(each failed indexer contributing zero results), and with any profile it
still resolves without raising an error. -/
theorem searchAlbum_fanout_resilient
    (indexers : List (IndexerConfig × Except Unit (List SearchResult)))
    (h : indexers.filter (fun p => p.1.enabled) ≠ []) :
    searchAlbum indexers none =
      Except.ok (((indexers.filter (fun p => p.1.enabled)).filterMap
        (fun p => p.2.toOption)).flatten) ∧
    ∀ qp : QualityProfile, ∃ rs, searchAlbum indexers (some qp) = Except.ok rs := by
  have hlen : ¬ (indexers.filter (fun p => p.1.enabled)).length = 0 := by
    simpa [List.length_eq_zero] using h
  constructor
  · simp only [searchAlbum, if_neg hlen]
    rw [flatten_default_eq_filterMap]
  · intro qp
    simp only [searchAlbum, if_neg hlen]
    exact ⟨_, rfl⟩

/-- Witness for C6: of three indexers, the first succeeds with one result,
the second throws and the third is disabled; the search returns exactly the
first indexer's result and also resolves when a profile is supplied. -/
theorem searchAlbum_fanout_resilient_witness :
    searchAlbum [(⟨"i1", "one", true⟩, Except.ok [candidateA]),
                 (⟨"i2", "two", true⟩, Except.error ()),
                 (⟨"i3", "three", false⟩, Except.ok [candidateB])] none
      = Except.ok [candidateA] ∧
    ∃ rs, searchAlbum [(⟨"i1", "one", true⟩, Except.ok [candidateA]),
                 (⟨"i2", "two", true⟩, Except.error ()),
                 (⟨"i3", "three", false⟩, Except.ok [candidateB])] (some scenarioProfile)
      = Except.ok rs :=
  ⟨(searchAlbum_fanout_resilient _ (by decide)).1.trans (by rfl),
   (searchAlbum_fanout_resilient _ (by decide)).2 scenarioProfile⟩

/-- C7: for every download whose stored status is completed or failed, a
status query returns the stored record with every field unchanged, leaves the
repository untouched (so repeated queries are idempotent and the download
never leaves its terminal status), and never contacts the download client. -/
theorem updateDownloadStatus_terminal_cached (repo : List Download) (cfg : Bool)
    (poll : String → PollStatus) (now : ℤ) (id : String) (d : Download)
    (hfind : DownloadRepository.findById repo id = some d)
    (hterm : d.status = DownloadStatus.completed ∨ d.status = DownloadStatus.failed) :
    updateDownloadStatus repo cfg poll now id = Except.ok (d, repo, false) := by
  simp only [updateDownloadStatus, hfind]
  rw [if_pos hterm]

/-- Witness for C7 at a concrete completed download: the poll oracle would
report a failure, but the stored record is returned untouched and the client
flag stays false. -/
theorem updateDownloadStatus_terminal_cached_witness :
    updateDownloadStatus [sampleCompletedDownload] true
      (fun _ => ⟨DownloadStatus.failed, 0, some "boom"⟩) 99 "d1"
      = Except.ok (sampleCompletedDownload, [sampleCompletedDownload], false) :=
  updateDownloadStatus_terminal_cached [sampleCompletedDownload] true
    (fun _ => ⟨DownloadStatus.failed, 0, some "boom"⟩) 99 "d1" sampleCompletedDownload
    (by decide) (Or.inl rfl)

theorem updateStatus_find_eq (repo : List Download) (id : String)
    (status : DownloadStatus) (progress : ℚ) (now : ℤ) (d : Download)
    (hfind : DownloadRepository.findById repo id = some d) :
    (DownloadRepository.updateStatus repo id status progress now).1 =
      some ⟨d.id, d.albumId, d.sabnzbdId, d.indexerName, status, progress,
        d.qualityProfileId, d.initiatedAt,
        (if status = DownloadStatus.completed ∨ status = DownloadStatus.failed
          then some now else d.completedAt),
        d.errorMessage⟩ := by
  unfold DownloadRepository.findById at hfind
  have hid0 := List.find?_some hfind
  have hid : (d.id == id) = true := by simpa using hid0
  simp only [DownloadRepository.updateStatus, DownloadRepository.update,
    DownloadRepository.findById]
  rw [List.find?_map]
  have hcomp : ((fun x : Download => x.id == id) ∘
      (fun x : Download => if x.id == id then DownloadRepository.applyUpdates x
        ⟨none, some status, some progress,
          (if status = DownloadStatus.completed ∨ status = DownloadStatus.failed
            then some now else none), none⟩ else x))
      = fun x : Download => x.id == id := by
    funext x
    by_cases hx : (x.id == id) = true <;>
      simp [Function.comp, hx, DownloadRepository.applyUpdates]
  rw [hcomp]
  rw [hfind]
  have hid2 : d.id = id := by simpa using hid
  by_cases ht : status = DownloadStatus.completed ∨ status = DownloadStatus.failed <;>
    simp [hid2, ht, DownloadRepository.applyUpdates]

/-- C10: a status write through DownloadRepository.updateStatus stores the new
status and progress, sets completedAt to the current time exactly when the
new status is completed or failed, leaves completedAt unchanged on an update
to queued or downloading, and touches no other field; in particular every
download that reaches a terminal status through updateStatus has a non-null
completedAt. -/
theorem updateStatus_sets_completedAt (repo : List Download) (id : String)
    (status : DownloadStatus) (progress : ℚ) (now : ℤ) (d : Download)
    (hfind : DownloadRepository.findById repo id = some d) :
    (DownloadRepository.updateStatus repo id status progress now).1 =
      some ⟨d.id, d.albumId, d.sabnzbdId, d.indexerName, status, progress,
        d.qualityProfileId, d.initiatedAt,
        (if status = DownloadStatus.completed ∨ status = DownloadStatus.failed
          then some now else d.completedAt),
        d.errorMessage⟩ ∧
    ((status = DownloadStatus.completed ∨ status = DownloadStatus.failed) →
      ∀ d2, (DownloadRepository.updateStatus repo id status progress now).1 = some d2 →
        d2.completedAt = some now) ∧
    ((status = DownloadStatus.queued ∨ status = DownloadStatus.downloading) →
      ∀ d2, (DownloadRepository.updateStatus repo id status progress now).1 = some d2 →
        d2.completedAt = d.completedAt) := by
  have h1 := updateStatus_find_eq repo id status progress now d hfind
  refine ⟨h1, ?_, ?_⟩
  · intro ht d2 h2
    rw [h1, Option.some_inj] at h2
    rw [← h2]
    simp [ht]
  · intro ht d2 h2
    have hnt : ¬ (status = DownloadStatus.completed ∨ status = DownloadStatus.failed) := by
      rcases ht with rfl | rfl <;> simp
    rw [h1, Option.some_inj] at h2
    rw [← h2]
    simp [hnt]

/-- Witness for C10: completing the sample queued download stamps
completedAt with the current time while keeping every other field. -/
theorem updateStatus_sets_completedAt_witness :
    (DownloadRepository.updateStatus [sampleQueuedDownload] "d2"
        DownloadStatus.completed 100 77).1
      = some ⟨"d2", "a2", some "sab2", none, DownloadStatus.completed, 100, none, 0,
          some 77, none⟩ :=
  ((updateStatus_sets_completedAt [sampleQueuedDownload] "d2" DownloadStatus.completed
      100 77 sampleQueuedDownload (by decide)).1).trans (by decide)

/-- C9: for every artist whose last-checked timestamp is less than 24 hours
old, the per-artist check performs no discography lookup, creates no album
records, initiates no download, and leaves the last-checked timestamp
unchanged, both within the monitoring pass and in the manual per-artist
check. -/
theorem monitoring_throttle (now t : ℤ) (artist : Artist)
    (discographyAlbums existingAlbums : List String)
    (hlc : artist.lastChecked = some t)
    (hrecent : ((now - t : ℤ) : ℚ) / (1000 * 60 * 60) < 24) :
    checkArtistForNewReleases now artist discographyAlbums existingAlbums = noCheckEffect ∧
    (∀ artists : List Artist, ∀ discography : String → List String,
        ∀ existing : String → List String, artist ∈ artists → artist.monitored = true →
        (artist.id, noCheckEffect) ∈ checkForNewReleases now artists discography existing) ∧
    (∀ artists : List Artist, artists.find? (fun a => a.id == artist.id) = some artist →
        artist.monitored = true →
        checkArtist artists artist.id now discographyAlbums existingAlbums
          = Except.ok noCheckEffect) := by
  have h1 : ∀ da ea : List String, checkArtistForNewReleases now artist da ea = noCheckEffect := by
    intro da ea
    simp only [checkArtistForNewReleases, hlc]
    rw [if_pos hrecent]
  refine ⟨h1 _ _, ?_, ?_⟩
  · intro artists discography existing hmem hmon
    unfold checkForNewReleases
    have hmemf : artist ∈ artists.filter (fun a => a.monitored) :=
      List.mem_filter.mpr ⟨hmem, by simp [hmon]⟩
    have := List.mem_map_of_mem
      (fun a => (a.id, checkArtistForNewReleases now a (discography a.name) (existing a.id)))
      hmemf
    simpa only [h1] using this
  · intro artists hfind hmon
    simp [checkArtist, hfind, hmon, h1]

/-- Witness for C9: an artist last checked 10 hours ago (36,000,000 ms) is
skipped by the per-artist check, by the monitoring pass and by the manual
check, each with no effect. -/
theorem monitoring_throttle_witness :
    checkArtistForNewReleases 36000000 throttledArtist ["Animals"] [] = noCheckEffect ∧
    (throttledArtist.id, noCheckEffect) ∈
      checkForNewReleases 36000000 [throttledArtist] (fun _ => ["Animals"]) (fun _ => []) ∧
    checkArtist [throttledArtist] "a1" 36000000 ["Animals"] [] = Except.ok noCheckEffect := by
  have h := monitoring_throttle 36000000 0 throttledArtist ["Animals"] [] rfl (by norm_num)
  exact ⟨h.1, h.2.1 [throttledArtist] (fun _ => ["Animals"]) (fun _ => []) (by decide) rfl,
    h.2.2 [throttledArtist] (by decide) rfl⟩

theorem filter_map_length_le {α : Type} (f : α → α) (p q : α → Bool) (l : List α)
    (h : ∀ a ∈ l, p (f a) = true → q a = true) :
    ((l.map f).filter p).length ≤ (l.filter q).length := by
  induction l with
  | nil => simp
  | cons a rest ih =>
      have ha := h a (List.mem_cons_self a rest)
      have ih2 := ih (fun x hx => h x (List.mem_cons_of_mem a hx))
      simp only [List.map_cons, List.filter_cons]
      by_cases hp : p (f a) = true
      · rw [if_pos hp, if_pos (ha hp)]
        simpa using ih2
      · rw [if_neg hp]
        split
        · exact Nat.le_succ_of_le ih2
        · exact ih2

theorem clearDefaults_map_id (l : List QualityProfile) :
    (QualityProfileRepository.clearDefaults l).map (fun p => p.id) = l.map (fun p => p.id) := by
  induction l with
  | nil => rfl
  | cons a rest ih => exact congrArg (List.cons a.id) ih

theorem filter_clearDefaults (l : List QualityProfile) :
    (QualityProfileRepository.clearDefaults l).filter (fun p => p.isDefault) = [] := by
  rw [List.filter_eq_nil_iff]
  intro p hp
  rw [QualityProfileRepository.clearDefaults] at hp
  simp only [List.mem_map] at hp
  obtain ⟨q, -, rfl⟩ := hp
  simp

theorem length_filter_id_le_one (l : List QualityProfile) (id : String)
    (hnd : (l.map (fun p => p.id)).Nodup) :
    (l.filter (fun p => p.id == id)).length ≤ 1 := by
  induction l with
  | nil => simp
  | cons a rest ih =>
      rw [List.map_cons, List.nodup_cons] at hnd
      by_cases ha : (a.id == id) = true
      · have haid : a.id = id := by simpa using ha
        have hrest : rest.filter (fun p => p.id == id) = [] := by
          rw [List.filter_eq_nil_iff]
          intro p hp hcontra
          have hpid : p.id = id := by simpa using hcontra
          exact hnd.1 (by
            rw [haid, ← hpid]
            exact List.mem_map_of_mem (fun p => p.id) hp)
        simp [List.filter_cons, ha, hrest]
      · simp only [List.filter_cons, if_neg ha]
        exact ih hnd.2

theorem setDefault_eq_map (l : List QualityProfile) (id : String) :
    QualityProfileRepository.setDefault l id = l.map (fun p =>
      if p.id == id then ⟨p.id, p.name, p.formats, p.minBitrate, p.maxFileSize, true⟩
      else ⟨p.id, p.name, p.formats, p.minBitrate, p.maxFileSize, false⟩) := by
  unfold QualityProfileRepository.setDefault QualityProfileRepository.clearDefaults
  rw [List.map_map]
  rfl

theorem setDefault_findDefault_eq (l : List QualityProfile) (id : String)
    (p : QualityProfile) (hfind : QualityProfileRepository.findById l id = some p) :
    QualityProfileRepository.findDefault (QualityProfileRepository.setDefault l id)
      = some ⟨p.id, p.name, p.formats, p.minBitrate, p.maxFileSize, true⟩ := by
  unfold QualityProfileRepository.findById at hfind
  have hid : (p.id == id) = true := by simpa using List.find?_some hfind
  rw [setDefault_eq_map]
  unfold QualityProfileRepository.findDefault
  rw [List.find?_map]
  have hcomp : ((fun q : QualityProfile => q.isDefault) ∘ (fun q : QualityProfile =>
      if q.id == id then ⟨q.id, q.name, q.formats, q.minBitrate, q.maxFileSize, true⟩
      else ⟨q.id, q.name, q.formats, q.minBitrate, q.maxFileSize, false⟩))
      = fun q : QualityProfile => q.id == id := by
    funext q
    by_cases hq : (q.id == id) = true <;> simp [Function.comp, hq]
  rw [hcomp, hfind, Option.map_some', if_pos hid]

theorem setDefault_only_target_default (l : List QualityProfile) (id : String)
    (q : QualityProfile) (hq : q ∈ QualityProfileRepository.setDefault l id)
    (hdef : q.isDefault = true) : q.id = id := by
  rw [setDefault_eq_map] at hq
  simp only [List.mem_map] at hq
  obtain ⟨r, -, rfl⟩ := hq
  by_cases hr : (r.id == id) = true
  · rw [if_pos hr]
    simpa using hr
  · rw [if_neg hr] at hdef ⊢
    simp at hdef

theorem create_atMostOne (l : List QualityProfile)
    (prof : QualityProfileRepository.NewProfile) (newId : String)
    (h : AtMostOneDefault l) : AtMostOneDefault (QualityProfileRepository.create l prof newId) := by
  unfold QualityProfileRepository.create AtMostOneDefault
  by_cases hd : prof.isDefault = true
  · simp [hd, List.filter_append, filter_clearDefaults]
  · have hd2 : prof.isDefault = false := by simpa using hd
    simp only [hd2, Bool.false_eq_true, if_false, List.filter_append, List.filter_cons,
      List.filter_nil]
    simp only [hd2, Bool.false_eq_true, if_false, List.append_nil]
    exact h

theorem update_atMostOne (l : List QualityProfile) (id : String)
    (u : QualityProfileRepository.ProfileUpdates)
    (hnd : (l.map (fun p => p.id)).Nodup)
    (h : AtMostOneDefault l) : AtMostOneDefault (QualityProfileRepository.update l id u) := by
  rcases hu : u.isDefault with _ | b
  · have hne : ¬ (u.isDefault = some true) := by simp [hu]
    simp only [QualityProfileRepository.update, if_neg hne]
    refine le_trans (filter_map_length_le _ _ (fun p => p.isDefault) l ?_) h
    intro a _ ha
    by_cases hid : (a.id == id) = true
    · rw [if_pos hid] at ha
      simpa [QualityProfileRepository.applyProfileUpdates, hu] using ha
    · rwa [if_neg hid] at ha
  · rcases b with _ | _
    · have hne : ¬ (u.isDefault = some true) := by simp [hu]
      simp only [QualityProfileRepository.update, if_neg hne]
      refine le_trans (filter_map_length_le _ _ (fun p => p.isDefault) l ?_) h
      intro a _ ha
      by_cases hid : (a.id == id) = true
      · rw [if_pos hid] at ha
        simp [QualityProfileRepository.applyProfileUpdates, hu] at ha
      · rwa [if_neg hid] at ha
    · simp only [QualityProfileRepository.update, if_pos hu]
      refine le_trans (filter_map_length_le _ _ (fun p => p.id == id)
        (QualityProfileRepository.clearDefaults l) ?_)
        (length_filter_id_le_one (QualityProfileRepository.clearDefaults l) id
          (by rw [clearDefaults_map_id]; exact hnd))
      intro a hmem ha
      by_cases hid : (a.id == id) = true
      · exact hid
      · rw [if_neg hid] at ha
        unfold QualityProfileRepository.clearDefaults at hmem
        simp only [List.mem_map] at hmem
        obtain ⟨r, -, rfl⟩ := hmem
        simp at ha

theorem setDefault_atMostOne (l : List QualityProfile) (id : String)
    (hnd : (l.map (fun p => p.id)).Nodup) :
    AtMostOneDefault (QualityProfileRepository.setDefault l id) := by
  rw [setDefault_eq_map]
  refine le_trans (filter_map_length_le _ _ (fun p => p.id == id) l ?_)
    (length_filter_id_le_one l id hnd)
  intro a _ ha
  by_cases hid : (a.id == id) = true
  · exact hid
  · rw [if_neg hid] at ha
    simp at ha

/-- C8: over any profile table with primary-key-unique ids, after
setDefault(p2) succeeds findDefault returns p2 (with its default flag set)
and no other profile has isDefault = true, regardless of the prior state;
and each of create, update and setDefault preserves the invariant that at
most one quality profile has isDefault = true (setDefault even establishes
it unconditionally). -/
theorem setDefault_exclusive (l : List QualityProfile) (id newId : String)
    (prof : QualityProfileRepository.NewProfile) (u : QualityProfileRepository.ProfileUpdates)
    (hnd : (l.map (fun p => p.id)).Nodup) :
    (∀ p : QualityProfile, QualityProfileRepository.findById l id = some p →
        QualityProfileRepository.findDefault (QualityProfileRepository.setDefault l id)
          = some ⟨p.id, p.name, p.formats, p.minBitrate, p.maxFileSize, true⟩) ∧
    (∀ q ∈ QualityProfileRepository.setDefault l id, q.isDefault = true → q.id = id) ∧
    (AtMostOneDefault l → AtMostOneDefault (QualityProfileRepository.create l prof newId)) ∧
    (AtMostOneDefault l → AtMostOneDefault (QualityProfileRepository.update l id u)) ∧
    AtMostOneDefault (QualityProfileRepository.setDefault l id) :=
  ⟨fun p hp => setDefault_findDefault_eq l id p hp,
   fun q hq hdef => setDefault_only_target_default l id q hq hdef,
   fun h => create_atMostOne l prof newId h,
   fun h => update_atMostOne l id u hnd h,
   setDefault_atMostOne l id hnd⟩

/-- Witness for C8: making the second profile default moves the default flag
to it exclusively, and create/update/setDefault each keep at most one
default on a concrete two-profile table. -/
theorem setDefault_exclusive_witness :
    QualityProfileRepository.findDefault
        (QualityProfileRepository.setDefault [scenarioProfile, altProfile] "q2")
      = some ⟨"q2", "alt", ["MP3"], none, none, true⟩ ∧
    AtMostOneDefault (QualityProfileRepository.setDefault [scenarioProfile, altProfile] "q2") ∧
    AtMostOneDefault (QualityProfileRepository.create [scenarioProfile, altProfile]
        ⟨"new", ["FLAC"], none, none, true⟩ "q3") ∧
    AtMostOneDefault (QualityProfileRepository.update [scenarioProfile, altProfile] "q2"
        ⟨none, none, none, none, some true⟩) := by
  have h := setDefault_exclusive [scenarioProfile, altProfile] "q2" "q3"
    ⟨"new", ["FLAC"], none, none, true⟩ ⟨none, none, none, none, some true⟩ (by decide)
  exact ⟨(h.1 altProfile (by decide)).trans (by decide), h.2.2.2.2,
    h.2.2.1 (by decide), h.2.2.2.1 (by decide)⟩

end MusicUsenetManager
